import Mathlib

/-!
Shallow embedding of the `web-server` thread pool (`src/web-server/src/lib.rs`,
`src/web-server/src/bin/main.rs`) and of the `messages-actix` shared state
(`src/messages-actix/src/lib.rs`), with theorems settling the specification
claims about them.
-/

namespace WebServer

/-- The envelope `enum Message { NewJob(Job), Terminate }` from `web-server/src/lib.rs`.
The job payload (`Job = Box<dyn FnOnce() + Send>`) is abstracted by an
element of `α`; invoking it is recorded as an event. -/
inductive Message (α : Type) where
  | NewJob : α → Message α
  | Terminate : Message α
deriving DecidableEq

/-- The error `mpsc::Receiver::recv` returns when the sending side has been
dropped (the channel is closed). -/
inductive RecvError where
  | disconnected
deriving DecidableEq

/-- Observable events of one worker thread executing the loop body
`let message = receiver.lock().unwrap().recv().unwrap(); match message ...`.
`lockAcquire` is the `lock()` call on the shared receiver, `recvCall` the
`recv()` on it, `lockRelease` the drop of the temporary `MutexGuard` (which,
per Rust temporary-lifetime rules, happens at the end of the `let` statement,
before the `match`), `invoke f` the call `job()`, `panicked` an `unwrap`
failure, `breakLoop` the `break` on `Terminate`. -/
inductive WorkerEvent (α : Type) where
  | lockAcquire : WorkerEvent α
  | recvCall : WorkerEvent α
  | lockRelease : WorkerEvent α
  | invoke : α → WorkerEvent α
  | panicked : WorkerEvent α
  | breakLoop : WorkerEvent α
deriving DecidableEq

/-- The worker loop of `Worker::new` (`web-server/src/lib.rs:300-313`), run
against a stream of `recv` results (one per loop iteration; `recv` blocks, so
a real iteration always obtains some result).  Each iteration:
acquire the receiver lock, call `recv`, drop the temporary guard at the end of
the `let` statement, then match the message:

* `Ok(NewJob(job))` — run `job()` and continue the loop;
* `Ok(Terminate)` — `break`;
* `Err(_)` — the second `unwrap` panics; the thread dies. -/
def workerLoop {α : Type} : List (Except RecvError (Message α)) → List (WorkerEvent α)
  | [] => []
  | r :: rest =>
    match r with
    | Except.error _ =>
        [WorkerEvent.lockAcquire, WorkerEvent.recvCall, WorkerEvent.panicked]
    | Except.ok (Message.NewJob f) =>
        WorkerEvent.lockAcquire :: WorkerEvent.recvCall :: WorkerEvent.lockRelease ::
          WorkerEvent.invoke f :: workerLoop rest
    | Except.ok Message.Terminate =>
        [WorkerEvent.lockAcquire, WorkerEvent.recvCall, WorkerEvent.lockRelease,
          WorkerEvent.breakLoop]

/-- Given the number of consumer-lock acquisitions currently outstanding,
check that every job invocation in the event list happens while the worker
holds no lock. -/
def invokesUnlocked {α : Type} : Nat → List (WorkerEvent α) → Bool
  | _, [] => true
  | d, WorkerEvent.lockAcquire :: es => invokesUnlocked (d + 1) es
  | d, WorkerEvent.lockRelease :: es => invokesUnlocked (d - 1) es
  | d, WorkerEvent.invoke _ :: es => d == 0 && invokesUnlocked d es
  | d, _ :: es => invokesUnlocked d es

/-- The payloads a worker invokes, in order, over a run of its loop. -/
def invokedJobs {α : Type} (es : List (WorkerEvent α)) : List α :=
  es.filterMap fun e =>
    match e with
    | WorkerEvent.invoke f => some f
    | _ => none

/-- C1: in every iteration of the worker loop the guard on the shared
consumer is released before the job payload is invoked — on any path of the
loop, every `invoke` event happens with zero consumer-lock acquisitions
outstanding. -/
theorem worker_never_holds_lock_during_job {α : Type}
    (rs : List (Except RecvError (Message α))) :
    invokesUnlocked 0 (workerLoop rs) = true := by
  induction rs with
  | nil => rfl
  | cons r rest ih =>
    cases r with
    | error e => rfl
    | ok m =>
      cases m with
      | NewJob f => simpa [workerLoop, invokesUnlocked] using ih
      | Terminate => rfl

/-- C4: matching on the received envelope, a `NewJob(f)` iteration invokes
`f` exactly once and the loop continues with the rest of the stream, while a
`Terminate` iteration exits the loop without invoking any payload (whatever
messages would have followed). -/
theorem worker_match_spec {α : Type} (f : α)
    (rest : List (Except RecvError (Message α))) :
    (workerLoop (Except.ok (Message.NewJob f) :: rest)
        = WorkerEvent.lockAcquire :: WorkerEvent.recvCall :: WorkerEvent.lockRelease ::
            WorkerEvent.invoke f :: workerLoop rest
      ∧ invokedJobs (workerLoop (Except.ok (Message.NewJob f) :: rest))
          = f :: invokedJobs (workerLoop rest))
    ∧ (workerLoop (Except.ok (Message.Terminate : Message α) :: rest)
        = [WorkerEvent.lockAcquire, WorkerEvent.recvCall, WorkerEvent.lockRelease,
            WorkerEvent.breakLoop]
      ∧ invokedJobs (workerLoop (Except.ok (Message.Terminate : Message α) :: rest)) = []) := by
  refine ⟨⟨rfl, ?_⟩, rfl, rfl⟩
  simp [workerLoop, invokedJobs]

/-- C5 counterexample: when `recv` reports channel-closed, the worker does
NOT exit its loop cleanly — the trace never reaches `breakLoop`; it ends in a
panic (the `unwrap` on the `recv` result). -/
theorem recv_closed_counterexample :
    ¬ (WorkerEvent.breakLoop ∈
          workerLoop [(Except.error RecvError.disconnected : Except RecvError (Message Nat))]
        ∧ WorkerEvent.panicked ∉
            workerLoop [(Except.error RecvError.disconnected :
              Except RecvError (Message Nat))]) := by
  decide

/-- C5 amended: if `recv` on the shared consumer signals channel-closed, the
worker fails fatally — the `unwrap` on the `recv` result panics, ending the
thread without a clean `break` and without invoking any payload. -/
theorem recv_closed_panics {α : Type} (e : RecvError)
    (rest : List (Except RecvError (Message α))) :
    workerLoop (Except.error e :: rest)
        = [WorkerEvent.lockAcquire, WorkerEvent.recvCall, WorkerEvent.panicked]
      ∧ WorkerEvent.breakLoop ∉ workerLoop (Except.error e :: rest)
      ∧ invokedJobs (workerLoop (Except.error e :: rest)) = [] := by
  refine ⟨rfl, ?_, rfl⟩
  simp [workerLoop]

/-- The source's `struct Worker { id: usize, thread: Option<thread::JoinHandle<()>> }`.
A join handle is modelled by the spawned thread's identifier (a `Nat`). -/
structure Worker where
  id : Nat
  thread : Option Nat
deriving DecidableEq

/-- Constructor `Worker::new(id, receiver)`: spawn the loop thread and store its handle.
Returns the worker together with the identifier of the thread it spawned
(we identify the handle with the worker's id, the only datum available). -/
def Worker.new (id : Nat) : Worker × Nat :=
  ({ id := id, thread := some id }, id)

/-- The source's `struct ThreadPool { workers: Vec<Worker>, sender: ... }`.  The sender is
not data in the model; the sends the pool performs are recorded as events. -/
structure ThreadPool where
  workers : List Worker
deriving DecidableEq

/-- Constructor `ThreadPool::new(size)` (`web-server/src/lib.rs:249-266`):
`assert!(size > 0)` fires before the channel is created and before any worker
is constructed, so for `size = 0` construction panics with no thread spawned
(`none`, empty spawn list); otherwise one worker is pushed per
`id in 0..size`.  Returns the pool (or `none` for the panic) together with
the identifiers of the threads spawned, in spawn order. -/
def ThreadPool.new (size : Nat) : Option ThreadPool × List Nat :=
  if 0 < size then
    let built := (List.range size).map Worker.new
    (some { workers := built.map Prod.fst }, built.map Prod.snd)
  else
    (none, [])

/-- Observable events of `<ThreadPool as Drop>::drop`
(`web-server/src/lib.rs:278-296`): a `Terminate` send on the channel, the
`worker.thread.take()` that moves the handle out of the optional slot
(recording the worker's id and the slot's contents), a successful
`thread.join()`, and a `join()` whose `unwrap` panics. -/
inductive DropEvent where
  | sendTerminate : DropEvent
  | takeSlot : Nat → Option Nat → DropEvent
  | joinOk : Nat → DropEvent
  | joinPanic : Nat → DropEvent
deriving DecidableEq

/-- Phase B of `drop`: `for worker in &mut self.workers { if let Some(thread)
= worker.thread.take() { thread.join().unwrap(); } }`, run against an oracle
`jr` giving each join's outcome.  Returns the events, the workers as left by
the loop, and whether the destructor panicked.  On a join failure the
`unwrap` panics: the loop stops and the remaining workers are left untouched
(in particular, never joined). -/
def dropJoinLoop (jr : Nat → Except String Unit) : List Worker → List DropEvent × List Worker × Bool
  | [] => ([], [], false)
  | w :: ws =>
    match w.thread with
    | none =>
      let r := dropJoinLoop jr ws
      (DropEvent.takeSlot w.id none :: r.1, { w with thread := none } :: r.2.1, r.2.2)
    | some t =>
      match jr t with
      | Except.ok _ =>
        let r := dropJoinLoop jr ws
        (DropEvent.takeSlot w.id (some t) :: DropEvent.joinOk t :: r.1,
          { w with thread := none } :: r.2.1, r.2.2)
      | Except.error _ =>
        ([DropEvent.takeSlot w.id (some t), DropEvent.joinPanic t],
          { w with thread := none } :: ws, true)

/-- The destructor `<ThreadPool as Drop>::drop`: first loop — one `Terminate` send per
worker (`for _ in &self.workers`); second loop — take each handle and join
it.  Returns (events, final workers, panicked). -/
def ThreadPool.dropRun (jr : Nat → Except String Unit) (p : ThreadPool) :
    List DropEvent × List Worker × Bool :=
  let sends := p.workers.map fun _ => DropEvent.sendTerminate
  let r := dropJoinLoop jr p.workers
  (sends ++ r.1, r.2.1, r.2.2)

/-- The phase-B event segment one worker contributes when its join succeeds:
move the handle out of the slot, then join it (or nothing to join when the
slot is empty). -/
def joinSegment (w : Worker) : List DropEvent :=
  match w.thread with
  | some t => [DropEvent.takeSlot w.id (some t), DropEvent.joinOk t]
  | none => [DropEvent.takeSlot w.id none]

theorem dropJoinLoop_allOk (jr : Nat → Except String Unit)
    (hok : ∀ t, jr t = Except.ok ()) (ws : List Worker) :
    dropJoinLoop jr ws
      = (ws.flatMap joinSegment, ws.map (fun w => { w with thread := none }), false) := by
  induction ws with
  | nil => rfl
  | cons w ws ih =>
    cases h : w.thread with
    | none =>
      simp only [dropJoinLoop, h, ih, List.flatMap_cons, List.map_cons, joinSegment]
      rfl
    | some t =>
      simp only [dropJoinLoop, h, hok t, ih, List.flatMap_cons, List.map_cons, joinSegment]
      rfl

/-- C2: pool destruction is two strictly separated phases — the event trace
is exactly `workers.length` `Terminate` sends followed by the per-worker
join segments (none of which is a send, so all `N` sends precede every
join); each worker's handle is moved out of its optional slot (`takeSlot`)
immediately before it is joined, and every final slot is empty. -/
theorem drop_two_phase (p : ThreadPool) (jr : Nat → Except String Unit)
    (hok : ∀ t, jr t = Except.ok ()) :
    p.dropRun jr
        = (List.replicate p.workers.length DropEvent.sendTerminate
            ++ p.workers.flatMap joinSegment,
          p.workers.map (fun w => { w with thread := none }), false)
      ∧ ∀ e ∈ p.workers.flatMap joinSegment, e ≠ DropEvent.sendTerminate := by
  constructor
  · simp [ThreadPool.dropRun, dropJoinLoop_allOk jr hok, List.map_const]
  · intro e he
    rcases List.mem_flatMap.mp he with ⟨w, _, hw⟩
    cases h : w.thread with
    | none =>
      rw [joinSegment, h] at hw
      simp only [List.mem_singleton] at hw
      subst hw
      intro hc
      cases hc
    | some t =>
      rw [joinSegment, h] at hw
      simp only [List.mem_cons, List.not_mem_nil, or_false] at hw
      rcases hw with hw | hw <;> subst hw <;> intro hc <;> cases hc

/-- Witness for C2 at a concrete two-worker pool with an all-successful
join oracle. -/
theorem drop_two_phase_witness :
    ({ workers := [{ id := 0, thread := some 0 }, { id := 1, thread := some 1 }] } :
        ThreadPool).dropRun (fun _ => Except.ok ())
        = ([DropEvent.sendTerminate, DropEvent.sendTerminate,
            DropEvent.takeSlot 0 (some 0), DropEvent.joinOk 0,
            DropEvent.takeSlot 1 (some 1), DropEvent.joinOk 1],
          [{ id := 0, thread := none }, { id := 1, thread := none }], false) := by
  have h := drop_two_phase
    ({ workers := [{ id := 0, thread := some 0 }, { id := 1, thread := some 1 }] })
    (fun _ => Except.ok ()) (fun _ => rfl)
  rw [h.1]
  rfl

/-- C3: for every `size ≥ 1`, `ThreadPool::new(size)` succeeds, spawning
exactly `size` worker threads whose workers carry ids `0..size-1`; for
`size = 0` the `assert!` panics at construction, before any thread is
spawned. -/
theorem new_spec (size : Nat) :
    (1 ≤ size →
      (ThreadPool.new size).1
          = some { workers := (List.range size).map fun i => { id := i, thread := some i } }
        ∧ (ThreadPool.new size).2 = List.range size
        ∧ (ThreadPool.new size).2.length = size)
    ∧ (size = 0 → ThreadPool.new size = (none, [])) := by
  constructor
  · intro h
    refine ⟨?_, ?_, ?_⟩ <;>
      simp [ThreadPool.new, Nat.lt_of_lt_of_le Nat.zero_lt_one h, Worker.new,
        List.map_map, Function.comp_def]
  · intro h
    subst h
    rfl

/-- Witness for C3: `size = 3` succeeds with ids `0, 1, 2` and three spawned
threads; `size = 0` panics with no spawn. -/
theorem new_spec_witness :
    ((ThreadPool.new 3).1
        = some { workers := [{ id := 0, thread := some 0 }, { id := 1, thread := some 1 },
            { id := 2, thread := some 2 }] }
      ∧ (ThreadPool.new 3).2 = [0, 1, 2])
    ∧ ThreadPool.new 0 = (none, []) := by
  have h3 := (new_spec 3).1 (by decide)
  have h0 := (new_spec 0).2 rfl
  exact ⟨⟨by rw [h3.1]; rfl, by rw [h3.2.1]; rfl⟩, h0⟩

/-- A pool of two workers whose first join fails, for the C6 counterexample. -/
def poolJoinFail : ThreadPool :=
  { workers := [{ id := 0, thread := some 10 }, { id := 1, thread := some 11 }] }

/-- A join oracle under which thread 10's join fails. -/
def jrFail : Nat → Except String Unit :=
  fun t => if t = 10 then Except.error "join failed" else Except.ok ()

/-- C6 counterexample: with two workers whose first join fails, the
destructor panics (the `unwrap` on `join()`) and the second worker is never
joined — destruction does not log-and-continue. -/
theorem join_failure_counterexample :
    ¬ ((poolJoinFail.dropRun jrFail).2.2 = false
        ∧ DropEvent.joinOk 11 ∈ (poolJoinFail.dropRun jrFail).1) := by
  decide

/-- C6 amended: during pool destruction, if joining one worker's thread
fails, the `unwrap` panics and shutdown aborts — the remaining workers are
not joined (the trace ends at the failing worker's `joinPanic` and the
workers after it keep their handles). -/
theorem join_failure_aborts (jr : Nat → Except String Unit) (w : Worker)
    (ws : List Worker) (t : Nat) (hthread : w.thread = some t)
    (hfail : ∃ msg, jr t = Except.error msg) :
    dropJoinLoop jr (w :: ws)
      = ([DropEvent.takeSlot w.id (some t), DropEvent.joinPanic t],
        { w with thread := none } :: ws, true) := by
  rcases hfail with ⟨msg, hmsg⟩
  simp [dropJoinLoop, hthread, hmsg]

/-- Witness for C6's amended claim at the concrete failing pool. -/
theorem join_failure_aborts_witness :
    dropJoinLoop jrFail [{ id := 0, thread := some 10 }, { id := 1, thread := some 11 }]
      = ([DropEvent.takeSlot 0 (some 10), DropEvent.joinPanic 10],
        [{ id := 0, thread := none }, { id := 1, thread := some 11 }], true) :=
  join_failure_aborts jrFail { id := 0, thread := some 10 }
    [{ id := 1, thread := some 11 }] 10 rfl ⟨"join failed", rfl⟩

/-- Bytes of an ASCII string (for ASCII text, `Char.toNat` per character
coincides with the UTF-8 bytes the Rust code compares). -/
def asciiBytes (s : String) : List Nat :=
  s.data.map Char.toNat

/-- The contents of `let mut buffer = [0; 1024];` after
`stream.read(&mut buffer)`: the first `min request.length 1024` bytes of the
incoming request, the rest still zero. -/
def readBuffer (request : List Nat) : List Nat :=
  request.take 1024 ++ List.replicate (1024 - request.length) 0

/-- The function `handle_connection` (`web-server/src/bin/main.rs:66-89`): read up to 1024
bytes into a zeroed buffer, test `buffer.starts_with(b"GET / HTTP/1.1\r\n")`,
pick the status line and the file name, and write the status line followed by
the file's contents.  The filesystem is abstracted by `fsRead`
(`fs::read_to_string`); the returned string is what is written to the
stream. -/
def handle_connection (request : List Nat) (fsRead : String → String) : String :=
  let buffer := readBuffer request
  let get := asciiBytes "GET / HTTP/1.1\r\n"
  let pick :=
    if get.isPrefixOf buffer then ("HTTP/1.1 200 OK\r\n\r\n", "index.html")
    else ("HTTP/1.1 404 NOT FOUND\r\n\r\n", "404.html")
  pick.1 ++ fsRead pick.2

/-- C9: for every connection, if the read buffer begins with the 16-byte
sequence `GET / HTTP/1.1\r\n` the handler responds with
`HTTP/1.1 200 OK\r\n\r\n` followed by the bytes of `index.html`, and
otherwise with `HTTP/1.1 404 NOT FOUND\r\n\r\n` followed by the bytes of
`404.html`. -/
theorem handle_connection_spec (request : List Nat) (fsRead : String → String) :
    ((asciiBytes "GET / HTTP/1.1\r\n").isPrefixOf (readBuffer request) = true →
      handle_connection request fsRead = "HTTP/1.1 200 OK\r\n\r\n" ++ fsRead "index.html")
    ∧ ((asciiBytes "GET / HTTP/1.1\r\n").isPrefixOf (readBuffer request) = false →
      handle_connection request fsRead
        = "HTTP/1.1 404 NOT FOUND\r\n\r\n" ++ fsRead "404.html") := by
  constructor <;> intro h <;> simp [handle_connection, h]

/-- Witness for C9: a well-formed `GET /` request yields the 200 response
with the contents of `index.html`, and a different request line yields the
404 response with the contents of `404.html`, for a concrete filesystem. -/
theorem handle_connection_spec_witness :
    handle_connection (asciiBytes "GET / HTTP/1.1\r\nHost: localhost\r\n\r\n")
        (fun name => if name = "index.html" then "<p>Hi</p>" else "<p>Oops</p>")
      = "HTTP/1.1 200 OK\r\n\r\n" ++ "<p>Hi</p>"
    ∧ handle_connection (asciiBytes "GET /foo HTTP/1.1\r\n\r\n")
        (fun name => if name = "index.html" then "<p>Hi</p>" else "<p>Oops</p>")
      = "HTTP/1.1 404 NOT FOUND\r\n\r\n" ++ "<p>Oops</p>" := by
  constructor
  · exact (handle_connection_spec _ _).1 (by decide)
  · exact (handle_connection_spec _ _).2 (by decide)

end WebServer

namespace MessagesActix

/-- One worker's application state (`struct AppState` in
`messages-actix/src/lib.rs`): the worker's `server_id`, the contents of the
interior-mutable `request_count` cell, and the contents of the shared,
lock-protected `messages` vector as seen by the handler while it holds the
lock. -/
structure AppState where
  server_id : Nat
  request_count : Nat
  messages : List String
deriving DecidableEq

/-- Operation `Cell::get`: load the cell's current value. -/
def Cell.get (c : Nat) : Nat := c

/-- Operation `Cell::set`: store a new value into the cell. -/
def Cell.set (_c : Nat) (v : Nat) : Nat := v

/-- The modulus of a 64-bit `usize`: `SERVER_COUNTER` is an `AtomicUsize`,
and `fetch_add` wraps around on overflow. -/
def usizeSize : Nat := 2 ^ 64

theorem usizeSize_pos : 0 < usizeSize := by
  norm_num [usizeSize]

/-- Atomic `SERVER_COUNTER.fetch_add(delta, Ordering::SeqCst)`: atomically
return the previous contents and store the sum, wrapping around at the
`usize` modulus.  Sequential consistency makes each call a single
indivisible step in a total order over all calls. -/
def fetchAdd (c : Nat) (delta : Nat) : Nat × Nat :=
  (c, (c + delta) % usizeSize)

/-- The `server_id`s handed out by `n` successive `fetch_add(1, SeqCst)`
calls on the counter when its contents are `c` (the app factory in
`MessageApp::run` performs one such call per worker it builds). -/
def allocServerIds (c : Nat) : Nat → List Nat
  | 0 => []
  | n + 1 =>
    let r := fetchAdd c 1
    r.1 :: allocServerIds r.2 n

theorem allocServerIds_map_mod (c : Nat) (hc : c < usizeSize) (n : Nat) :
    allocServerIds c n = (List.range n).map fun k => (c + k) % usizeSize := by
  induction n generalizing c with
  | zero => rfl
  | succ n ih =>
    have hc1 : (c + 1) % usizeSize < usizeSize := Nat.mod_lt _ usizeSize_pos
    rw [List.range_succ_eq_map, List.map_cons, List.map_map]
    simp only [allocServerIds, fetchAdd]
    rw [ih _ hc1]
    congr 1
    · rw [Nat.add_zero, Nat.mod_eq_of_lt hc]
    · apply List.map_congr_left
      intro k _
      simp only [Function.comp_apply]
      rw [Nat.mod_add_mod]
      congr 1
      omega

/-- C7 counterexample: the process-wide counter is a `usize` and its
`fetch_add` wraps at `2^64`, so a process run that constructs `2^64 + 1`
workers hands out `server_id` 0 twice — the ids are not unique across every
single process run. -/
theorem server_id_wrap_counterexample :
    ¬ (allocServerIds 0 (usizeSize + 1)).Nodup := by
  intro hnd
  rw [allocServerIds_map_mod 0 usizeSize_pos (usizeSize + 1)] at hnd
  have h0 : (0 : Nat) ∈ List.range (usizeSize + 1) := List.mem_range.mpr (Nat.succ_pos _)
  have hS : usizeSize ∈ List.range (usizeSize + 1) := List.mem_range.mpr (Nat.lt_succ_self _)
  have heq : (0 + 0) % usizeSize = (0 + usizeSize) % usizeSize := by
    simp [Nat.mod_self]
  have h := List.inj_on_of_nodup_map hnd h0 hS heq
  exact absurd h.symm (Nat.ne_of_gt usizeSize_pos)

/-- C7 amended: the `server_id`s drawn by successive sequentially-consistent
wrapping `fetch_add 1` steps on the process-wide `usize` counter, starting
from its initial value `0`, are exactly `0, 1, ..., n-1` in any process run
that constructs at most `2^64` workers — in such a run every constructed
worker observes a unique `server_id`. -/
theorem server_id_unique (n : Nat) (hn : n ≤ usizeSize) :
    allocServerIds 0 n = List.range n ∧ (allocServerIds 0 n).Nodup := by
  have h : allocServerIds 0 n = List.range n := by
    rw [allocServerIds_map_mod 0 usizeSize_pos n]
    calc (List.range n).map (fun k => (0 + k) % usizeSize)
        = (List.range n).map id := by
          apply List.map_congr_left
          intro k hk
          simp [Nat.mod_eq_of_lt (Nat.lt_of_lt_of_le (List.mem_range.mp hk) hn)]
      _ = List.range n := List.map_id _
  exact ⟨h, h ▸ List.nodup_range n⟩

/-- Witness for C7's amended claim: three constructions fit under the wrap
bound and receive the distinct ids 0, 1, 2. -/
theorem server_id_unique_witness :
    allocServerIds 0 3 = [0, 1, 2] ∧ (allocServerIds 0 3).Nodup := by
  have h := server_id_unique 3 (by decide)
  exact ⟨by rw [h.1]; rfl, h.2⟩

/-- Response shape `struct IndexResponse` (also used by `clear`). -/
structure IndexResponse where
  server_id : Nat
  request_count : Nat
  messages : List String
deriving DecidableEq

/-- Response shape `struct PostResponse`. -/
structure PostResponse where
  server_id : Nat
  request_count : Nat
  message : String
deriving DecidableEq

/-- Error body shape `struct PostError`. -/
structure PostError where
  server_id : Nat
  request_count : Nat
  error : String
deriving DecidableEq

/-- The `index` handler (`messages-actix/src/lib.rs:461-472`): load the
request-count cell, add one, store the result, lock the messages, and answer
with the worker's `server_id`, the new count and a clone of the messages. -/
def index (state : AppState) : AppState × IndexResponse :=
  let request_count := Cell.get state.request_count + 1
  let state := { state with request_count := Cell.set state.request_count request_count }
  let ms := state.messages
  (state,
    { server_id := state.server_id, request_count := request_count, messages := ms })

/-- The `clear` handler (`messages-actix/src/lib.rs:474-487`): increment the
cell the same way, clear the shared messages under the lock, and answer with
an empty message list. -/
def clear (state : AppState) : AppState × IndexResponse :=
  let request_count := Cell.get state.request_count + 1
  let state := { state with request_count := Cell.set state.request_count request_count }
  let state := { state with messages := [] }
  (state,
    { server_id := state.server_id, request_count := request_count, messages := [] })

/-- The `post` handler (`messages-actix/src/lib.rs:489-501`): increment the
cell, push a clone of the incoming message onto the shared messages under
the lock, and answer with the new count and the message. -/
def post (msg : String) (state : AppState) : AppState × PostResponse :=
  let request_count := Cell.get state.request_count + 1
  let state := { state with request_count := Cell.set state.request_count request_count }
  let state := { state with messages := state.messages ++ [msg] }
  (state,
    { server_id := state.server_id, request_count := request_count, message := msg })

/-- C8: on every request a worker handles — `index`, `clear`, or `post` —
the worker-local `request_count` cell is loaded, incremented by one and
stored back, and the response carries the new (incremented) value. -/
theorem request_count_increment (state : AppState) (msg : String) :
    ((index state).1.request_count = state.request_count + 1
      ∧ (index state).2.request_count = state.request_count + 1)
    ∧ ((clear state).1.request_count = state.request_count + 1
      ∧ (clear state).2.request_count = state.request_count + 1)
    ∧ ((post msg state).1.request_count = state.request_count + 1
      ∧ (post msg state).2.request_count = state.request_count + 1) :=
  ⟨⟨rfl, rfl⟩, ⟨rfl, rfl⟩, rfl, rfl⟩

/-- The error response `post_error` builds: a status code and a `PostError`
JSON body. -/
structure ErrorResponse where
  status : Nat
  body : PostError
deriving DecidableEq

/-- The `post_error` function (`messages-actix/src/lib.rs:503-515`): fetch
the owning worker's state from the request extensions, load-add-store the
request-count cell, and wrap the error text in a `400 Bad Request` response
whose JSON body carries the worker's `server_id`, the new count and the
error's display text.  Note: nothing in the source registers this function
anywhere, so it is dead code. -/
def post_error (err : String) (state : AppState) : AppState × ErrorResponse :=
  let request_count := Cell.get state.request_count + 1
  let state := { state with request_count := Cell.set state.request_count request_count }
  (state,
    { status := 400,
      body :=
        { server_id := state.server_id, request_count := request_count, error := err } })

/-- Route configuration relevant to the `/send` resource: actix-web's
`JsonConfig` carries the payload byte limit and an optional custom handler
invoked when JSON deserialization of a request body fails;
`JsonConfig::default()` starts with no such handler installed. -/
structure JsonConfig where
  limit : Nat
  error_handler : Option (String → AppState → AppState × ErrorResponse)

/-- The `JsonConfig` the source installs on the `/send` resource
(`messages-actix/src/lib.rs:448-452`):
`web::JsonConfig::default().limit(4096)` sets the byte limit to 4096 but
makes no `.error_handler(...)` call, so the custom-handler slot stays empty
and `post_error` is never registered. -/
def sendJsonConfig : JsonConfig :=
  { limit := 4096, error_handler := none }

/-- Outcome of a POST to `/send` whose body fails JSON deserialization. -/
inductive MalformedPostOutcome where
  | handled : AppState → ErrorResponse → MalformedPostOutcome
  | rejectedByDefault : AppState → MalformedPostOutcome

/-- The framework contract the source relies on for failed JSON extraction:
actix-web invokes the `JsonConfig`'s registered error handler if one is
installed, and otherwise produces its own default `400 Bad Request`
response, leaving the application's state untouched. -/
def malformedPost (cfg : JsonConfig) (err : String) (state : AppState) :
    MalformedPostOutcome :=
  match cfg.error_handler with
  | some h =>
    let r := h err state
    MalformedPostOutcome.handled r.1 r.2
  | none => MalformedPostOutcome.rejectedByDefault state

/-- C10 (code bug): the source never registers `post_error` on the `/send`
route's `JsonConfig`, so a malformed JSON POST takes the framework's default
path — the owning worker's `request_count` stays untouched and the custom
400 body is never built — even though the dead `post_error` function itself
would have incremented the count and reported it in a 400 body. -/
theorem post_error_unregistered (err : String) (state : AppState) :
    sendJsonConfig.error_handler = none
      ∧ malformedPost sendJsonConfig err state
          = MalformedPostOutcome.rejectedByDefault state
      ∧ (post_error err state).1.request_count = state.request_count + 1
      ∧ (post_error err state).2.status = 400
      ∧ (post_error err state).2.body.request_count = state.request_count + 1 :=
  ⟨rfl, rfl, rfl, rfl, rfl⟩

end MessagesActix
